import Mathlib

/-!
# Verification of the bex provisioning engine

Shallow embedding of the core of the `bex` bootstrap tool
(`src/bex/utils.py`, `src/bex/uv.py`, `src/bex/cli.py`) and proofs of the
spec's testable properties.

Modelling conventions:
* Paths are lists of path segments (`List String`).
* Python exceptions are the inductive `BexErr`: the two repository error
  classes `BexUvError` / `BexPyVenvError` (`src/bex/errors.py`), the
  cancellation error raised by `stdlibx`'s token, and `raw` for every other
  exception (httpx errors, OSError, ...).
* The one-shot cancellation token (`stdlibx.cancel`) is modelled by the
  observation index at which it transitions Active → Cancelled:
  `cancelAt = some a` means every observation with index `≥ a` sees the
  token cancelled, observations `< a` see it active; `none` means the token
  is never cancelled.  This bakes in the token's documented monotone
  one-shot behaviour.
-/

namespace Bex

/-- Python exceptions relevant to the engine, as raised by the code under
`src/bex`: the repository error taxonomy plus cancellation and raw
(unwrapped) exceptions. -/
inductive BexErr
  | bexUv (msg : String)
  | bexPyVenv (msg : String)
  | cancelled
  | raw
  deriving DecidableEq, Repr

/-- One-shot cancellation token state observed at observation index `t`:
cancelled iff the token's transition index `a` satisfies `a ≤ t`. -/
def tokCancelled (cancelAt : Option Nat) (t : Nat) : Bool :=
  match cancelAt with
  | none => false
  | some a => a ≤ t

/-! ## TransferClient: `download_file` (src/bex/utils.py, lines 85-116)

The chunked read loop
`while token.is_cancelled() is False: dest.write(next(chunk_iter))`
checks the token once per iteration (one observation), writes one chunk,
and exits either on an observed cancellation or on `StopIteration`.
After the loop, `is_token_cancelled(token)` is one more observation; if it
sees the token cancelled (and the temp file exists, which it does: the
`NamedTemporaryFile(delete=False)` created it and nothing deleted it), the
partial file is unlinked and `token.get_error()` — the signal's cause — is
raised; otherwise the temp path is returned. -/

/-- The read loop of `download_file`: starting at observation index `t`
with the remaining chunks, returns `(next observation index after the loop,
number of chunks written)`. -/
def dlLoop (cancelAt : Option Nat) : Nat → List Nat → Nat × Nat
  | t, [] => (t + 1, 0)
  | t, _ :: rest =>
      if tokCancelled cancelAt t then (t + 1, 0)
      else ((dlLoop cancelAt (t + 1) rest).1, (dlLoop cancelAt (t + 1) rest).2 + 1)

/-- Outcome of one `download_file` call: the returned value (or raised
error), whether the temp-file path still exists on disk afterwards, the
number of chunks written, and the observation index of the final
`is_token_cancelled` check. -/
structure DlOut where
  res : Except BexErr (List String)
  tempExists : Bool
  written : Nat
  finalObs : Nat
  deriving Repr

/-- `download_file` (src/bex/utils.py): stream chunks to a fresh temp file,
then re-check the token; on an observed cancellation delete the file and
raise the token's cause, else return the temp path.  `cause` is the error
carried by the cancellation signal (`token.get_error()`). -/
def download_file (cancelAt : Option Nat) (cause : BexErr)
    (tempPath : List String) (chunks : List Nat) : DlOut :=
  let r := dlLoop cancelAt 0 chunks
  if tokCancelled cancelAt r.1 then
    { res := .error cause, tempExists := false, written := r.2, finalObs := r.1 }
  else
    { res := .ok tempPath, tempExists := true, written := r.2, finalObs := r.1 }

/-- If the token cancels at observation index `a` and at least one chunk
is still unread at that point, the loop stops there: it exits at
observation `a + 1` having written exactly `a` chunks. -/
theorem dlLoop_cancel_mid (a : Nat) :
    ∀ (chunks : List Nat) (t : Nat), t ≤ a → a - t < chunks.length →
      dlLoop (some a) t chunks = (a + 1, a - t) := by
  intro chunks
  induction chunks with
  | nil => intro t _ h; simp at h
  | cons c rest ih =>
      intro t ht hlen
      by_cases hta : a ≤ t
      · have heq : t = a := Nat.le_antisymm ht hta
        subst heq
        simp [dlLoop, tokCancelled]
      · have h1 : t + 1 ≤ a := Nat.lt_of_not_le hta
        have h2 : a - (t + 1) < rest.length := by
          simp only [List.length_cons] at hlen
          omega
        have h3 : a - (t + 1) + 1 = a - t := by omega
        simp [dlLoop, tokCancelled, hta, ih (t + 1) h1 h2, h3]

/-- If the token never cancels during the loop's checks, every chunk is
written and the loop exits by `StopIteration`. -/
theorem dlLoop_no_cancel (cancelAt : Option Nat) :
    ∀ (chunks : List Nat) (t : Nat),
      (∀ i, i ≤ t + chunks.length → tokCancelled cancelAt i = false) →
      dlLoop cancelAt t chunks = (t + chunks.length + 1, chunks.length) := by
  intro chunks
  induction chunks with
  | nil => intro t _; simp [dlLoop]
  | cons c rest ih =>
      intro t hno
      have hchk : tokCancelled cancelAt t = false := hno t (by omega)
      have hrec := ih (t + 1) (by
        intro i hi
        exact hno i (by simp only [List.length_cons]; omega))
      have h3 : t + 1 + rest.length + 1 = t + (rest.length + 1) + 1 := by omega
      simp [dlLoop, hchk, hrec, List.length_cons, h3]

/-- C3: if the cancellation signal becomes Cancelled mid-transfer (the token
transitions at observation index `a` while at least one chunk is still
unread), `download_file` stops reading further chunks (exactly `a` of the
`chunks.length` chunks were written), deletes the partial temp file (the
temp path no longer exists), and fails with the signal's cause. -/
theorem download_cancel_cleanup (a : Nat) (cause : BexErr)
    (tempPath : List String) (chunks : List Nat) (hmid : a < chunks.length) :
    download_file (some a) cause tempPath chunks =
      { res := .error cause, tempExists := false, written := a, finalObs := a + 1 } := by
  have hl := dlLoop_cancel_mid a chunks 0 (Nat.zero_le a) (by simpa using hmid)
  simp [download_file, hl, tokCancelled]

/-- Witness for C3 at a concrete download: three chunks, token cancelled
from observation 1 on. -/
theorem download_cancel_cleanup_witness :
    (1 : Nat) < [10, 20, 30].length ∧
      download_file (some 1) BexErr.cancelled ["tmp", "f"] [10, 20, 30] =
        { res := .error BexErr.cancelled, tempExists := false, written := 1,
          finalObs := 2 } :=
  ⟨by decide, download_cancel_cleanup 1 BexErr.cancelled ["tmp", "f"] [10, 20, 30] (by decide)⟩

/-- C9: `download_file` never returns a path while the token is cancelled:
whenever it returns `ok`, the final re-check observed an uncancelled token;
and when the token transitions only after the last chunk (index
`chunks.length + 1`, i.e. the stream was fully consumed before cancellation
was observed), the completed temp file is still deleted and the signal's
cause is raised by the post-loop re-check. -/
theorem download_never_ok_while_cancelled (cancelAt : Option Nat) (cause : BexErr)
    (tempPath tempPath2 : List String) (chunks : List Nat) :
    ((download_file cancelAt cause tempPath chunks).res = .ok tempPath2 →
      tokCancelled cancelAt (download_file cancelAt cause tempPath chunks).finalObs = false) ∧
    download_file (some (chunks.length + 1)) cause tempPath chunks =
      { res := .error cause, tempExists := false, written := chunks.length,
        finalObs := chunks.length + 1 } := by
  constructor
  · intro hok
    cases hc : tokCancelled cancelAt (dlLoop cancelAt 0 chunks).1 with
    | true => simp [download_file, hc] at hok
    | false => simp [download_file, hc]
  · have hl := dlLoop_no_cancel (some (chunks.length + 1)) chunks 0 (by
      intro i hi
      simp only [tokCancelled, decide_eq_false_iff_not]
      omega)
    simp [download_file, hl, tokCancelled]

/-- Witness for C9: a one-chunk download with an uncancelled token returns
the temp path with the token observed active at return; the same download
with the token transitioning right after the last chunk deletes the file
and fails. -/
theorem download_never_ok_while_cancelled_witness :
    tokCancelled none (download_file none BexErr.cancelled ["t"] [7]).finalObs = false ∧
      download_file (some 2) BexErr.cancelled ["t"] [7] =
        { res := .error BexErr.cancelled, tempExists := false, written := 1,
          finalObs := 2 } :=
  ⟨(download_never_ok_while_cancelled none BexErr.cancelled ["t"] ["t"] [7]).1 rfl,
    (download_never_ok_while_cancelled (some 2) BexErr.cancelled ["t"] ["t"] [7]).2⟩

/-! ## ProcessSupervisor: `wait_process` (src/bex/utils.py, lines 20-82)

`wait_process` spawns the child with merged stdout/stderr, registers
`_terminate_process` as the token's cancellation handler, and loops:
* `process.poll()` is checked first; if the child has exited the flow yields
  `""`, classified as `_ProcessEndedError`: the loop calls
  `cancel_token.raise_if_cancelled()` and then returns `process.poll()`.
* If the child is still running, `stdout.readline()` is attempted; an empty
  read is turned into `"\n"` ("still running, no output yet"), any result is
  stripped of newlines and delivered to the callback; an exception from the
  read is the generic `Error()` arm: `_terminate_process(None)` runs and
  `process.poll()` is returned. -/

/-- A child process as the termination ladder sees it: whether it has
already exited when the ladder runs, how long after `terminate()` it would
exit on its own (`none` = it ignores graceful termination), how long the
unconditional `wait()` after `kill()` takes, and its final exit code. -/
structure Child where
  exited : Bool
  gracefulExit : Option Nat
  killReapTime : Nat
  exitCode : Int
  deriving DecidableEq, Repr

/-- What one `_terminate_process` call did: whether the child had exited by
the time the call returned, the time the call took, and which rungs of the
ladder ran. -/
structure LadderResult where
  reaped : Bool
  timeSpent : Nat
  terminated : Bool
  killSent : Bool
  deriving DecidableEq, Repr

/-- `_terminate_process` (src/bex/utils.py, lines 40-51): no-op if
`process.poll()` is not `None`; else `terminate()`, then
`process.wait(timeout=timeout)` — which raises `TimeoutExpired` only when
`timeout` is a number and expires, and blocks without bound when `timeout`
is `None` — and on `TimeoutExpired`, `kill()` followed by an unconditional
`wait()`.  `none` as the result models a call that never returns. -/
def _terminate_process (timeout : Option Nat) (c : Child) : Option LadderResult :=
  if c.exited then some { reaped := true, timeSpent := 0, terminated := false, killSent := false }
  else
    match c.gracefulExit, timeout with
    | some g, some t =>
        if g ≤ t then some { reaped := true, timeSpent := g, terminated := true, killSent := false }
        else some { reaped := true, timeSpent := t + c.killReapTime, terminated := true, killSent := true }
    | some g, none =>
        some { reaped := true, timeSpent := g, terminated := true, killSent := false }
    | none, some t =>
        some { reaped := true, timeSpent := t + c.killReapTime, terminated := true, killSent := true }
    | none, none => none

/-- Whenever a `_terminate_process` call returns, the child has exited. -/
theorem terminate_returns_reaped (timeout : Option Nat) (c : Child) (lr : LadderResult)
    (h : _terminate_process timeout c = some lr) : lr.reaped = true := by
  unfold _terminate_process at h
  split at h
  · cases h; rfl
  · split at h <;> try split at h
    all_goals first | (cases h; rfl) | simp at h

/-- C4 counterexample: with `timeout=None` (the supervisor's default, and
what every caller in src/bex/cli.py uses) and a child that ignores graceful
termination, `process.wait(timeout=None)` never raises `TimeoutExpired`, the
kill rung never runs, and the cancellation handler blocks forever — the
call never returns. -/
theorem terminate_ladder_blocks_counterexample :
    _terminate_process none
      { exited := false, gracefulExit := none, killReapTime := 0, exitCode := 1 } = none := rfl

/-- C4 amended: the cancellation handler is a no-op if the child has
already exited, and for every invocation with a *finite* timeout `t` it
returns with the child reaped within `t + ε` (`ε` = the post-kill reap
time); with `timeout=None` a child that ignores graceful termination is
never force-killed and the handler blocks indefinitely. -/
theorem terminate_ladder_bounded (t : Nat) (c : Child) :
    ∃ r, _terminate_process (some t) c = some r ∧ r.reaped = true ∧
      r.timeSpent ≤ t + c.killReapTime ∧
      (c.exited = true →
        r = { reaped := true, timeSpent := 0, terminated := false, killSent := false }) := by
  by_cases he : c.exited = true
  · refine ⟨{ reaped := true, timeSpent := 0, terminated := false, killSent := false },
      ?_, rfl, Nat.zero_le _, fun _ => rfl⟩
    simp [_terminate_process, he]
  · cases hg : c.gracefulExit with
    | none =>
        refine ⟨{ reaped := true, timeSpent := t + c.killReapTime,
                  terminated := true, killSent := true },
          ?_, rfl, Nat.le_refl _, fun hx => absurd hx he⟩
        simp [_terminate_process, he, hg]
    | some g =>
        by_cases hgt : g ≤ t
        · refine ⟨{ reaped := true, timeSpent := g, terminated := true, killSent := false },
            ?_, rfl, le_trans hgt (Nat.le_add_right t c.killReapTime), fun hx => absurd hx he⟩
          simp [_terminate_process, he, hg, hgt]
        · refine ⟨{ reaped := true, timeSpent := t + c.killReapTime,
                    terminated := true, killSent := true },
            ?_, rfl, Nat.le_refl _, fun hx => absurd hx he⟩
          simp [_terminate_process, he, hg, hgt]

/-- Witness for the amended C4: a child that ignores graceful termination,
invoked with a finite timeout of 2, is reaped within 2 + 3. -/
theorem terminate_ladder_bounded_witness :
    ∃ r, _terminate_process (some 2)
        { exited := false, gracefulExit := none, killReapTime := 3, exitCode := 0 } = some r ∧
      r.reaped = true ∧ r.timeSpent ≤ 2 + 3 ∧
      ((false : Bool) = true →
        r = { reaped := true, timeSpent := 0, terminated := false, killSent := false }) :=
  terminate_ladder_bounded 2
    { exited := false, gracefulExit := none, killReapTime := 3, exitCode := 0 }

/-- Python's `val.strip("\n")`: drop every leading and trailing newline
character. -/
def stripNewlines (s : String) : String :=
  String.mk (((s.data.dropWhile fun c => c = '\n').reverse.dropWhile fun c => c = '\n').reverse)

/-- One iteration of the `wait_process` read loop, as observed from the
child: either the child was still running and `readline` produced `s`
(`s = ""` is the momentary empty read turned into `"\n"`), or
`process.poll()` was not `None` (child exited with `rc`, the flow yields
`""` and classifies it as `_ProcessEndedError`), or the child was still
running and the read raised an exception (the generic `Error()` arm), with
`c` the child's state when `_terminate_process(None)` then runs. -/
inductive Iter
  | outLine (s : String)
  | ended (rc : Int)
  | readErr (c : Child)
  deriving Repr

/-- What one terminating `wait_process` call produced: the returned exit
status (`Except.error ()` models `raise_if_cancelled` raising Cancelled),
whether the child had exited by the time the call returned, the lines
delivered to the callback, and whether the generic-error termination ladder
ran. -/
structure RunRes where
  retval : Except Unit Int
  childExited : Bool
  lines : List String
  ladderUsed : Bool
  deriving Repr

/-- The `wait_process` main loop (src/bex/utils.py, lines 53-82) over a
trace of per-iteration observations, starting at iteration index `i` (the
index at which `raise_if_cancelled` would observe the token).  `none`
models a call that has not terminated on the given trace (the trace ran
out, or the `timeout=None` ladder blocked forever). -/
def wait_process_run (timeout : Option Nat) (cancelAt : Option Nat) :
    Nat → List Iter → Option RunRes
  | _, [] => none
  | i, .outLine s :: rest =>
      match wait_process_run timeout cancelAt (i + 1) rest with
      | none => none
      | some r =>
          some { r with lines := stripNewlines (if s = "" then "\n" else s) :: r.lines }
  | i, .ended rc :: _ =>
      if tokCancelled cancelAt i then
        some { retval := .error (), childExited := true, lines := [], ladderUsed := false }
      else
        some { retval := .ok rc, childExited := true, lines := [], ladderUsed := false }
  | _, .readErr c :: _ =>
      match _terminate_process timeout c with
      | none => none
      | some lr =>
          some { retval := .ok c.exitCode, childExited := lr.reaped, lines := [],
                 ladderUsed := true }

/-- C5: a run whose stream is exhausted with the child exited (a prefix of
delivered lines followed by a `poll() ≠ None` observation) surfaces
Cancelled when the token was cancelled by then, and the child's raw exit
status otherwise. -/
theorem wait_process_cancel_precedence (timeout cancelAt : Option Nat) (rc : Int)
    (rest : List Iter) :
    ∀ (lines : List String) (i : Nat),
      ∃ r, wait_process_run timeout cancelAt i
            (lines.map Iter.outLine ++ Iter.ended rc :: rest) = some r ∧
        r.retval = (if tokCancelled cancelAt (i + lines.length) then
            Except.error () else Except.ok rc) ∧
        r.childExited = true ∧ r.ladderUsed = false := by
  intro lines
  induction lines with
  | nil =>
      intro i
      by_cases hc : tokCancelled cancelAt i = true
      · refine ⟨{ retval := .error (), childExited := true, lines := [],
                  ladderUsed := false }, ?_, ?_, rfl, rfl⟩
        · simp [wait_process_run, hc]
        · simp [hc]
      · refine ⟨{ retval := .ok rc, childExited := true, lines := [],
                  ladderUsed := false }, ?_, ?_, rfl, rfl⟩
        · simp [wait_process_run, hc]
        · simp [hc]
  | cons s ls ih =>
      intro i
      obtain ⟨r, hr, hv, he, hl⟩ := ih (i + 1)
      refine ⟨{ r with lines := stripNewlines (if s = "" then "\n" else s) :: r.lines },
        ?_, ?_, he, hl⟩
      · simp only [List.map_cons, List.cons_append, wait_process_run, List.append_eq, hr]
      · have harith : i + 1 + ls.length = i + (ls.length + 1) := by omega
        simpa [harith] using hv

/-- C10: whenever the supervisor loop returns at all — by stream-exhausted
termination or by the generic-error arm that runs the termination ladder —
the child process has already exited. -/
theorem wait_process_return_child_exited (timeout cancelAt : Option Nat) :
    ∀ (trace : List Iter) (i : Nat) (r : RunRes),
      wait_process_run timeout cancelAt i trace = some r → r.childExited = true := by
  intro trace
  induction trace with
  | nil => intro i r h; simp [wait_process_run] at h
  | cons it rest ih =>
      intro i r h
      cases it with
      | outLine s =>
          simp only [wait_process_run] at h
          cases hrec : wait_process_run timeout cancelAt (i + 1) rest with
          | none => rw [hrec] at h; simp at h
          | some r0 =>
              rw [hrec] at h
              cases h
              exact ih (i + 1) r0 hrec
      | ended rc =>
          simp only [wait_process_run] at h
          by_cases hc : tokCancelled cancelAt i = true
          · rw [if_pos hc] at h; cases h; rfl
          · rw [if_neg hc] at h; cases h; rfl
      | readErr c =>
          simp only [wait_process_run] at h
          cases hl : _terminate_process timeout c with
          | none => rw [hl] at h; simp at h
          | some lr =>
              rw [hl] at h
              cases h
              exact terminate_returns_reaped timeout c lr hl

/-- Witness for C10: a concrete run — one delivered line, then a read error
with a still-running child and a finite ladder timeout — returns with the
child exited. -/
theorem wait_process_return_child_exited_witness :
    ∃ r, wait_process_run (some 1) none 0
        [Iter.outLine "hello\n",
         Iter.readErr { exited := false, gracefulExit := none, killReapTime := 2, exitCode := 9 }]
        = some r ∧ r.childExited = true :=
  ⟨{ retval := .ok 9, childExited := true, lines := ["hello"], ladderUsed := true },
    rfl,
    wait_process_return_child_exited (some 1) none
      [Iter.outLine "hello\n",
       Iter.readErr { exited := false, gracefulExit := none, killReapTime := 2, exitCode := 9 }]
      0
      { retval := .ok 9, childExited := true, lines := ["hello"], ladderUsed := true }
      rfl⟩

/-! ## ToolchainAcquirer: `download_uv` (src/bex/uv.py)

`_get_uv_latest_version` performs one network GET of the release index;
an exception from the GET or the JSON decode escapes the function, is
captured by `result.safe` in `download_uv`'s version flow, and is re-raised
*unwrapped* by `result.unwrap_or_raise()`.  A successful query is filtered
to non-draft, non-prerelease entries, sorted descending by publish
timestamp (Python's stable `sorted(..., reverse=True)`), and the first
entry's name is taken; an empty result becomes `option.nothing()`, which
`option.ok_or(BexUvError(...))` then turns into the version-resolution
error. -/

/-- A release-index entry `{name, draft, prerelease, published_at}`; the
timestamp is abstracted to a `Nat`. -/
structure Release where
  name : String
  draft : Bool
  prerelease : Bool
  publishedAt : Nat
  deriving DecidableEq, Repr

/-- Stable insertion of `e` into a descending-by-timestamp list: `e` goes
in front of the first entry whose timestamp is not larger (so earlier
entries win ties, as in Python's stable sort). -/
def insertByPublishedDesc (e : Release) : List Release → List Release
  | [] => [e]
  | y :: ys =>
      if e.publishedAt < y.publishedAt then y :: insertByPublishedDesc e ys
      else e :: y :: ys

/-- Python's `sorted(releases, key=published_at, reverse=True)`: stable
descending sort by publish timestamp. -/
def sortByPublishedDesc : List Release → List Release
  | [] => []
  | x :: xs => insertByPublishedDesc x (sortByPublishedDesc xs)

/-- `_get_uv_latest_version` (src/bex/uv.py, lines 156-168) given the
outcome of the index GET: an exception from the query propagates
(`Except.error`); otherwise drafts and prereleases are discarded and the
name of the remaining entry with the latest publish timestamp (first of
the descending sort) is returned, `none` when the filtered set is empty. -/
def _get_uv_latest_version (query : Except Unit (List Release)) :
    Except Unit (Option String) :=
  match query with
  | .error e => .error e
  | .ok entries =>
      let releases := entries.filter fun e => !e.draft && !e.prerelease
      .ok ((sortByPublishedDesc releases).head?.map Release.name)

/-- The version flow at the top of `download_uv` (src/bex/uv.py, lines
42-50): a pinned version is used verbatim; otherwise
`result.safe(_get_uv_latest_version)` runs and `result.unwrap_or_raise()`
re-raises a captured query exception raw, while an empty result is turned
into `BexUvError` by `option.ok_or(...) |> result.unwrap_or_raise()`. -/
def resolveVersion (version : Option String) (query : Except Unit (List Release)) :
    Except BexErr String :=
  match version with
  | some v => .ok v
  | none =>
      match _get_uv_latest_version query with
      | .error _ => .error .raw
      | .ok none => .error (.bexUv "Invalid UV version")
      | .ok (some v) => .ok v

/-- Network GETs performed by the version flow: none for a pinned version,
one (the release-index query) otherwise. -/
def resolutionNetCalls (version : Option String) : Nat :=
  match version with
  | some _ => 0
  | none => 1

/-- Python's `str.lower()` restricted to the ASCII platform names the code
compares against. -/
def pyLower (s : String) : String :=
  String.mk (s.data.map Char.toLower)

/-- `_get_uv_release_info` (src/bex/uv.py, lines 116-153) with the raw
platform probes injected: `system = platform.system()`, `machine =
platform.machine()`, `ccVar = sysconfig.get_config_var("CC")`, `libc =
platform.libc_ver()[0]`.  Returns `(archive filename, top-level archive
directory name)`, or `none` for an unsupported platform. -/
def _get_uv_release_info (system machine : String) (ccVar : Option String)
    (libc : String) : Option (String × String) :=
  let sys := pyLower system
  if ¬(sys = "windows" ∨ sys = "linux" ∨ sys = "darwin") then none
  else
    let arch? : Option String :=
      if machine = "AMD64" ∨ machine = "x86_64" then some "x86_64"
      else if machine = "arm64" ∨ machine = "aarch64" then some "aarch64"
      else none
    match arch? with
    | none => none
    | some arch =>
        let vendor :=
          if sys = "windows" then "pc" else if sys = "darwin" then "apple" else "unknown"
        let abi? : Option String :=
          if sys = "windows" then
            some (if ccVar = none ∨ ccVar = some "cl.exe" then "msvc" else "gnu")
          else if sys = "linux" then
            some (if libc = "glibc" ∨ libc = "libc" then "gnu" else "musl")
          else none
        let target :=
          match abi? with
          | some abi => "uv-" ++ arch ++ "-" ++ vendor ++ "-" ++ sys ++ "-" ++ abi
          | none => "uv-" ++ arch ++ "-" ++ vendor ++ "-" ++ sys
        if sys = "windows" then some (target ++ ".zip", target)
        else some (target ++ ".tar.gz", target)

/-- The cached binary's file name `uv-<version>[.exe]`. -/
def binName (version : String) (isWin : Bool) : String :=
  "uv-" ++ version ++ (if isWin then ".exe" else "")

/-- The environment one `download_uv` call runs in: the platform, the
outcome of the release-index query, which cache files exist and what the
cached binary currently contains (never read by the code), the token, the
archive byte stream, and whether extraction and chmod succeed. -/
structure UvWorld where
  isWin : Bool
  releaseQuery : Except Unit (List Release)
  binExists : String → Bool
  binContent : String
  system : String
  machine : String
  ccVar : Option String
  libc : String
  cancelAt : Option Nat
  cancelCause : BexErr
  chunks : List Nat
  extractOk : Bool
  chmodOk : Bool

/-- Observable side effects of one `download_uv` call. -/
structure UvEff where
  netCalls : Nat
  deriving DecidableEq, Repr

/-- `download_uv` (src/bex/uv.py, lines 35-113): resolve the version; if
`directory / uv-<version>[.exe]` exists return it immediately; else derive
the platform release info (`none` ⇒ `BexUvError`), download the archive
via `download_file` (any failure, cancellation included, is mapped to
`BexUvError` by `result.map_err`), then extract and chmod (`zipped`; any
failure ⇒ `BexUvError`), deleting the temp file best-effort either way. -/
def download_uv (directory : List String) (version : Option String) (w : UvWorld) :
    Except BexErr (List String) × UvEff :=
  match resolveVersion version w.releaseQuery with
  | .error e => (.error e, { netCalls := resolutionNetCalls version })
  | .ok v =>
      if w.binExists (binName v w.isWin) then
        (.ok (directory ++ [binName v w.isWin]), { netCalls := resolutionNetCalls version })
      else
        match _get_uv_release_info w.system w.machine w.ccVar w.libc with
        | none =>
            (.error (.bexUv "Could not find release info for UV"),
             { netCalls := resolutionNetCalls version })
        | some fi =>
            let dl := download_file w.cancelAt w.cancelCause ["tmp", fi.1] w.chunks
            match dl.res with
            | .error _ =>
                (.error (.bexUv "Failed to download uv"),
                 { netCalls := resolutionNetCalls version + 1 })
            | .ok _ =>
                if w.extractOk && w.chmodOk then
                  (.ok (directory ++ [binName v w.isWin]),
                   { netCalls := resolutionNetCalls version + 1 })
                else
                  (.error (.bexUv "Failed to extract uv from archive"),
                   { netCalls := resolutionNetCalls version + 1 })

/-- Does a `download_uv` outcome fail with the version-resolution /
toolchain error kind (`BexUvError`)? -/
def isBexUvErr (r : Except BexErr (List String)) : Bool :=
  match r with
  | .error (.bexUv _) => true
  | _ => false

/-- C2: with a pinned version `v`, if `cacheDir/uv-<v>[.exe]` already
exists, `download_uv` returns that path with zero network calls, for every
world — in particular regardless of the cached file's content, which is
never read. -/
theorem acquire_skip_on_exists (v : String) (directory : List String) (w : UvWorld)
    (hex : w.binExists (binName v w.isWin) = true) :
    download_uv directory (some v) w =
        (.ok (directory ++ [binName v w.isWin]), { netCalls := 0 }) ∧
      ∀ content, download_uv directory (some v) { w with binContent := content } =
        download_uv directory (some v) w := by
  constructor
  · simp [download_uv, resolveVersion, resolutionNetCalls, hex]
  · intro content
    rfl

/-- Witness for C2: concrete cached world with garbage content; zero
network calls and the cached path returned. -/
theorem acquire_skip_on_exists_witness :
    download_uv ["c"] (some "1.0.0")
        { isWin := false, releaseQuery := .error (), binExists := fun _ => true,
          binContent := "junk", system := "Linux", machine := "x86_64", ccVar := none,
          libc := "glibc", cancelAt := none, cancelCause := .cancelled, chunks := [],
          extractOk := false, chmodOk := false } =
      (.ok ["c", "uv-1.0.0"], { netCalls := 0 }) :=
  (acquire_skip_on_exists "1.0.0" ["c"]
    { isWin := false, releaseQuery := .error (), binExists := fun _ => true,
      binContent := "junk", system := "Linux", machine := "x86_64", ccVar := none,
      libc := "glibc", cancelAt := none, cancelCause := .cancelled, chunks := [],
      extractOk := false, chmodOk := false } rfl).1

/-- C6 amended: a pinned version is used verbatim; the spec's concrete
release index resolves to `"1.0.0"` (latest-published non-draft
non-prerelease entry); an empty filtered set fails with the
version-resolution error kind (`BexUvError`); but an error of the index
query itself propagates as the raw exception, not as `BexUvError`. -/
theorem version_resolution :
    (∀ (v : String) (query : Except Unit (List Release)),
        resolveVersion (some v) query = .ok v) ∧
    resolveVersion none (.ok
        [{ name := "0.9.0", draft := false, prerelease := false, publishedAt := 1 },
         { name := "1.0.0", draft := false, prerelease := false, publishedAt := 2 },
         { name := "1.1.0-rc1", draft := false, prerelease := true, publishedAt := 3 }]) =
      .ok "1.0.0" ∧
    (∀ entries : List Release,
        entries.filter (fun e => !e.draft && !e.prerelease) = [] →
        resolveVersion none (.ok entries) = .error (.bexUv "Invalid UV version")) ∧
    resolveVersion none (.error ()) = .error .raw := by
  refine ⟨fun v query => rfl, rfl, ?_, rfl⟩
  intro entries h
  simp [resolveVersion, _get_uv_latest_version, h, sortByPublishedDesc]

/-- Witness for the amended C6: a pinned version survives a broken index
untouched, and an index holding only a draft entry fails with
`BexUvError`. -/
theorem version_resolution_witness :
    resolveVersion (some "0.8.1") (.error ()) = .ok "0.8.1" ∧
      resolveVersion none (.ok
          [{ name := "0.1", draft := true, prerelease := false, publishedAt := 5 }]) =
        .error (.bexUv "Invalid UV version") :=
  ⟨version_resolution.1 "0.8.1" (.error ()),
    version_resolution.2.2.1
      [{ name := "0.1", draft := true, prerelease := false, publishedAt := 5 }]
      (by decide)⟩

/-- C6 counterexample: when the release-index query itself errors,
`download_uv` fails with the raw captured exception — not with the
version-resolution error kind, contrary to the claim. -/
theorem version_resolution_raw_counterexample :
    (download_uv ["cache", "uv"] none
        { isWin := false, releaseQuery := .error (), binExists := fun _ => false,
          binContent := "", system := "Linux", machine := "x86_64", ccVar := none,
          libc := "glibc", cancelAt := none, cancelCause := .cancelled, chunks := [],
          extractOk := true, chmodOk := true }).1 = .error .raw ∧
      isBexUvErr (download_uv ["cache", "uv"] none
        { isWin := false, releaseQuery := .error (), binExists := fun _ => false,
          binContent := "", system := "Linux", machine := "x86_64", ccVar := none,
          libc := "glibc", cancelAt := none, cancelCause := .cancelled, chunks := [],
          extractOk := true, chmodOk := true }).1 = false :=
  ⟨rfl, rfl⟩

/-- C7: the platform probe maps `(Windows, AMD64)` to the
`x86_64-pc-windows` target with abi msvc or gnu (zip archive),
`(Darwin, arm64)` to `aarch64-apple-darwin` with no abi, and
`(Linux, x86_64, musl libc)` to `x86_64-unknown-linux-musl`
(gzipped tars), while any system whose lowercased name is not
windows/linux/darwin yields `none` (surfaced as an explicit failure by the
caller). -/
theorem platform_mapping :
    (∀ (cc : Option String) (libc : String),
        _get_uv_release_info "Windows" "AMD64" cc libc =
            some ("uv-x86_64-pc-windows-msvc.zip", "uv-x86_64-pc-windows-msvc") ∨
          _get_uv_release_info "Windows" "AMD64" cc libc =
            some ("uv-x86_64-pc-windows-gnu.zip", "uv-x86_64-pc-windows-gnu")) ∧
    (∀ (cc : Option String) (libc : String),
        _get_uv_release_info "Darwin" "arm64" cc libc =
          some ("uv-aarch64-apple-darwin.tar.gz", "uv-aarch64-apple-darwin")) ∧
    (∀ cc : Option String,
        _get_uv_release_info "Linux" "x86_64" cc "musl" =
          some ("uv-x86_64-unknown-linux-musl.tar.gz", "uv-x86_64-unknown-linux-musl")) ∧
    (∀ (system machine : String) (cc : Option String) (libc : String),
        pyLower system ≠ "windows" → pyLower system ≠ "linux" →
        pyLower system ≠ "darwin" →
        _get_uv_release_info system machine cc libc = none) := by
  refine ⟨?_, fun cc libc => rfl, fun cc => rfl, ?_⟩
  · intro cc libc
    cases cc with
    | none => exact Or.inl rfl
    | some x =>
        by_cases hx : x = "cl.exe"
        · subst hx
          exact Or.inl rfl
        · refine Or.inr ?_
          have hcond : (some x = (none : Option String) ∨
              some x = (some "cl.exe" : Option String)) = False := by
            simp [hx]
          simp only [_get_uv_release_info, hcond]
          rfl
  · intro system machine cc libc h1 h2 h3
    simp [_get_uv_release_info, h1, h2, h3]

/-- Witness for C7: concrete probes for a recognized platform and for an
unrecognized OS string. -/
theorem platform_mapping_witness :
    _get_uv_release_info "Darwin" "arm64" none "" =
        some ("uv-aarch64-apple-darwin.tar.gz", "uv-aarch64-apple-darwin") ∧
      _get_uv_release_info "Plan9" "x86_64" none "" = none :=
  ⟨platform_mapping.2.1 none "",
    platform_mapping.2.2.2 "Plan9" "x86_64" none "" (by decide) (by decide) (by decide)⟩

/-! ## EnvironmentBuilder: `_create_isolated_environment`
(src/bex/cli.py, lines 371-453)

Three supervised `uv` invocations in sequence — `uv venv`, `uv pip
compile`, `uv pip sync` — each spawning one child via `wait_process`.
Each step's outcome is abstracted to the `wait_process` result: `Except.ok
rc` (raw exit status) or `Except.error ()` (it raised Cancelled). A
non-zero exit raises `BexPyVenvError` with the step's message and aborts;
nothing is ever rolled back. -/

/-- The child-process outcomes one build run observes, plus what the
step-1 child did to the file system (`uv venv` materializing `.venv`) and
the lock step's produced `requirements.txt` content. -/
structure BuildWorld where
  createRc : Except Unit Int
  lockRc : Except Unit Int
  syncRc : Except Unit Int
  venvMadeByCreate : Bool
  lockedOutput : String

/-- The builder-visible file-system state under `rootDir`. -/
structure BuildFS where
  venvExists : Bool
  requirementsIn : Option String
  requirementsTxt : Option String
  deriving DecidableEq, Repr

/-- Outcome of one `_create_isolated_environment` call: result, final file
system, number of child processes spawned, and whether the sync step was
invoked at all. -/
structure BuildOut where
  res : Except BexErr (List String)
  fs : BuildFS
  spawns : Nat
  syncInvoked : Bool

/-- `rootDir/.venv/{Scripts|bin}/{python.exe|python}` as computed by the
builder from `platform.system() == "Windows"`. -/
def pythonBinPath (rootDir : List String) (isWindows : Bool) : List String :=
  rootDir ++ [".venv", if isWindows then "Scripts" else "bin",
    if isWindows then "python.exe" else "python"]

/-- `_create_isolated_environment` (src/bex/cli.py): step 1 `uv venv`
(non-zero exit ⇒ `BexPyVenvError`), then `requirements_in.write_bytes(
requirements.encode("utf-8"))` and step 2 `uv pip compile` (non-zero exit
⇒ `BexPyVenvError`), then step 3 `uv pip sync` (non-zero exit ⇒
`BexPyVenvError`), finally the python path.  A step raising Cancelled
propagates. -/
def _create_isolated_environment (isWindows : Bool) (rootDir : List String)
    (requirements : String) (w : BuildWorld) (fs0 : BuildFS) : BuildOut :=
  let fs1 : BuildFS := { fs0 with venvExists := fs0.venvExists || w.venvMadeByCreate }
  match w.createRc with
  | .error _ => { res := .error .cancelled, fs := fs1, spawns := 1, syncInvoked := false }
  | .ok rc =>
      if rc ≠ 0 then
        { res := .error (.bexPyVenv "Failed to create python virtual environment"),
          fs := fs1, spawns := 1, syncInvoked := false }
      else
        let fs2 : BuildFS := { fs1 with requirementsIn := some requirements }
        match w.lockRc with
        | .error _ =>
            { res := .error .cancelled, fs := fs2, spawns := 2, syncInvoked := false }
        | .ok rc2 =>
            if rc2 ≠ 0 then
              { res := .error (.bexPyVenv "Failed to compile pip requirements"),
                fs := fs2, spawns := 2, syncInvoked := false }
            else
              let fs3 : BuildFS := { fs2 with requirementsTxt := some w.lockedOutput }
              match w.syncRc with
              | .error _ =>
                  { res := .error .cancelled, fs := fs3, spawns := 3, syncInvoked := true }
              | .ok rc3 =>
                  if rc3 ≠ 0 then
                    { res := .error (.bexPyVenv "Failed to sync pip requirements"),
                      fs := fs3, spawns := 3, syncInvoked := true }
                  else
                    { res := .ok (pythonBinPath rootDir isWindows), fs := fs3,
                      spawns := 3, syncInvoked := true }

/-- C8: the dependency spec is written verbatim to `requirements.in`
before the lock step, and when the lock child exits non-zero the build
aborts with the dependency-lock error kind, the sync step is never invoked
(two spawns only), and step 1's environment is left in place
(`venvExists` keeps whatever step 1 made of it; `requirements.txt` is
untouched). -/
theorem build_lock_failure_semantics (isWindows : Bool) (rootDir : List String)
    (requirements : String) (w : BuildWorld) (fs0 : BuildFS) (r : Int)
    (hc : w.createRc = .ok 0) (hl : w.lockRc = .ok r) (hr : r ≠ 0) :
    _create_isolated_environment isWindows rootDir requirements w fs0 =
      { res := .error (.bexPyVenv "Failed to compile pip requirements"),
        fs := { venvExists := fs0.venvExists || w.venvMadeByCreate,
                requirementsIn := some requirements,
                requirementsTxt := fs0.requirementsTxt },
        spawns := 2, syncInvoked := false } := by
  simp [_create_isolated_environment, hc, hl, hr]

/-- Witness for C8: a concrete run whose lock step exits 1 after a
successful create step. -/
theorem build_lock_failure_semantics_witness :
    _create_isolated_environment false ["proj"] "requests==2.31.0"
        { createRc := .ok 0, lockRc := .ok 1, syncRc := .ok 0,
          venvMadeByCreate := true, lockedOutput := "" }
        { venvExists := false, requirementsIn := none, requirementsTxt := none } =
      { res := .error (.bexPyVenv "Failed to compile pip requirements"),
        fs := { venvExists := true, requirementsIn := some "requests==2.31.0",
                requirementsTxt := none },
        spawns := 2, syncInvoked := false } :=
  build_lock_failure_semantics false ["proj"] "requests==2.31.0"
    { createRc := .ok 0, lockRc := .ok 1, syncRc := .ok 0,
      venvMadeByCreate := true, lockedOutput := "" }
    { venvExists := false, requirementsIn := none, requirementsTxt := none }
    1 rfl rfl (by decide)

/-! ## BootstrapOrchestrator: `_bootstrap` (src/bex/cli.py, lines 213-290)

`working_dir = directory/.bex` is created (`mkdir(exist_ok=True)`), the
descriptor file's SHA-1 is computed (`""` when reading raises), and
compared against `.envhash`'s stored contents; on a match the venv python
path is computed purely and returned — no spawn, no network call, no
existence check.  Otherwise `download_uv` then
`_create_isolated_environment` run and the new hash is persisted
best-effort. -/

/-- The descriptor-derived configuration `_bootstrap` consumes
(src/bex/config.py `Config`). -/
structure BootConfig where
  directory : List String
  fileBytes : List Nat
  uvVersion : Option String
  requiresPython : String
  requirements : String
  entrypoint : String

/-- File-system state the orchestrator itself touches. -/
structure BootFS where
  mkdirOk : Bool
  fileReadOk : Bool
  envhashReadOk : Bool
  envhash : Option String
  writeHashOk : Bool

/-- Side effects of one `_bootstrap` call: child processes spawned and
network calls made. -/
structure BootEff where
  spawns : Nat
  netCalls : Nat
  deriving DecidableEq, Repr

/-- The deterministically-computed previously-built runtime path
`workingDir/.venv/{Scripts|bin}/{python.exe|python}`, from
`sys.platform == "win32"`. -/
def venvPython (workingDir : List String) (isWin : Bool) : List String :=
  workingDir ++ [".venv", if isWin then "Scripts" else "bin",
    if isWin then "python.exe" else "python"]

/-- `_bootstrap` (src/bex/cli.py): mkdir `.bex`, hash the descriptor file,
compare with the stored `.envhash`; equal ⇒ return the computed venv
python path with no further work; else acquire the toolchain, build the
environment, persist the hash best-effort (failure swallowed).  `isWin` is
`sys.platform == "win32"`, `pWindows` is `platform.system() == "Windows"`,
`sha1` the hash function on file bytes. -/
def _bootstrap (isWin pWindows : Bool) (sha1 : List Nat → String) (cfg : BootConfig)
    (bfs : BootFS) (uvW : UvWorld) (bw : BuildWorld) (fs0 : BuildFS) :
    Except BexErr (List String) × BootEff :=
  if bfs.mkdirOk = false then (.error .raw, { spawns := 0, netCalls := 0 })
  else
    let workingDir := cfg.directory ++ [".bex"]
    let envHash := if bfs.fileReadOk then sha1 cfg.fileBytes else ""
    let hashCheck : Except Unit Bool :=
      match bfs.envhash with
      | none => .ok false
      | some stored =>
          if bfs.envhashReadOk = false then .error ()
          else .ok (envHash = stored)
    match hashCheck with
    | .error _ => (.error .raw, { spawns := 0, netCalls := 0 })
    | .ok true => (.ok (venvPython workingDir isWin), { spawns := 0, netCalls := 0 })
    | .ok false =>
        match download_uv (workingDir ++ ["cache", "uv"]) cfg.uvVersion uvW with
        | (.error e, uvEff) => (.error e, { spawns := 0, netCalls := uvEff.netCalls })
        | (.ok _, uvEff) =>
            let b := _create_isolated_environment pWindows workingDir cfg.requirements bw fs0
            match b.res with
            | .error e => (.error e, { spawns := b.spawns, netCalls := uvEff.netCalls })
            | .ok pyBin => (.ok pyBin, { spawns := b.spawns, netCalls := uvEff.netCalls })

/-- C1: when the stored `.envhash` equals the SHA-1 of the descriptor
file's bytes (and the trivial file-system operations of the fast path
succeed), `_bootstrap` performs zero spawns and zero network calls and
returns the deterministically-computed venv python path — for every
toolchain/builder world, so in particular without re-verifying that the
path exists. -/
theorem ensure_ready_idempotent (isWin pWindows : Bool) (sha1 : List Nat → String)
    (cfg : BootConfig) (bfs : BootFS) (uvW : UvWorld) (bw : BuildWorld) (fs0 : BuildFS)
    (hmk : bfs.mkdirOk = true) (hrd : bfs.fileReadOk = true)
    (hhrd : bfs.envhashReadOk = true) (hh : bfs.envhash = some (sha1 cfg.fileBytes)) :
    _bootstrap isWin pWindows sha1 cfg bfs uvW bw fs0 =
      (.ok (venvPython (cfg.directory ++ [".bex"]) isWin),
        { spawns := 0, netCalls := 0 }) := by
  simp [_bootstrap, hmk, hrd, hhrd, hh]

/-- Witness for C1: a concrete matched-hash world returns the venv python
path with zero spawns and zero network calls. -/
theorem ensure_ready_idempotent_witness :
    _bootstrap false false (fun _ => "h")
        { directory := ["proj"], fileBytes := [1, 2, 3], uvVersion := none,
          requiresPython := "3.12", requirements := "", entrypoint := "app:main" }
        { mkdirOk := true, fileReadOk := true, envhashReadOk := true,
          envhash := some "h", writeHashOk := true }
        { isWin := false, releaseQuery := .error (), binExists := fun _ => false,
          binContent := "", system := "Linux", machine := "x86_64", ccVar := none,
          libc := "glibc", cancelAt := none, cancelCause := .cancelled, chunks := [],
          extractOk := true, chmodOk := true }
        { createRc := .ok 0, lockRc := .ok 0, syncRc := .ok 0,
          venvMadeByCreate := true, lockedOutput := "" }
        { venvExists := true, requirementsIn := none, requirementsTxt := none } =
      (.ok ["proj", ".bex", ".venv", "bin", "python"],
        { spawns := 0, netCalls := 0 }) :=
  ensure_ready_idempotent false false (fun _ => "h")
    { directory := ["proj"], fileBytes := [1, 2, 3], uvVersion := none,
      requiresPython := "3.12", requirements := "", entrypoint := "app:main" }
    { mkdirOk := true, fileReadOk := true, envhashReadOk := true,
      envhash := some "h", writeHashOk := true }
    { isWin := false, releaseQuery := .error (), binExists := fun _ => false,
      binContent := "", system := "Linux", machine := "x86_64", ccVar := none,
      libc := "glibc", cancelAt := none, cancelCause := .cancelled, chunks := [],
      extractOk := true, chmodOk := true }
    { createRc := .ok 0, lockRc := .ok 0, syncRc := .ok 0,
      venvMadeByCreate := true, lockedOutput := "" }
    { venvExists := true, requirementsIn := none, requirementsTxt := none }
    rfl rfl rfl rfl

end Bex
